import Mathlib

/-!
Verification of `fabric-network/lib/gateway.js` (the Gateway class of
fabric-sdk-node).

The Gateway's option values are dynamic JavaScript values: primitives, plain
object literals, and non-plain objects (functions such as the event strategy
factories, or class instances such as the wallet).  `OptVal` is a shallow
embedding of these values; `PropList` is the association list of an object's
enumerable own properties, in insertion order, just as `for..in` enumerates
the string keys of a JS object.
-/

mutual
inductive OptVal where
  /-- JS `undefined` (also the result of reading an absent property). -/
  | undef : OptVal
  /-- a JS number (only integral values occur in the gateway options) -/
  | num : Int → OptVal
  /-- a JS string -/
  | str : String → OptVal
  /-- a JS boolean -/
  | boolean : Bool → OptVal
  /-- a non-plain JS object (function or class instance), identified by a
  reference tag, together with its enumerable own properties.  The default
  event strategy `EventStrategies.MSPID_SCOPE_ALLFORTX` and wallet instances
  are values of this form. -/
  | objref : String → PropList → OptVal
  /-- a plain JS object literal with its properties in insertion order -/
  | obj : PropList → OptVal
deriving DecidableEq, Repr

inductive PropList where
  | nil : PropList
  | cons : String → OptVal → PropList → PropList
deriving DecidableEq, Repr
end

/-- Property read, `o[k]`: JS objects have unique keys; the association
list's first occurrence is the binding. -/
def getProp : PropList → String → OptVal
  | .nil, _ => .undef
  | .cons k' v' rest, k => if k' = k then v' else getProp rest k

/-- Property assignment, `o[k] = v`: updates the existing binding in place
(keeping its position) or appends a new one, as JS property order does. -/
def setProp : PropList → String → OptVal → PropList
  | .nil, k, v => .cons k v .nil
  | .cons k' v' rest, k, v =>
    if k' = k then .cons k v rest else .cons k' v' (setProp rest k v)

/-- Property deletion, `delete o[k]`. -/
def delProp : PropList → String → PropList
  | .nil, _ => .nil
  | .cons k' v' rest, k => if k' = k then delProp rest k else .cons k' v' (delProp rest k)

/-- The keys of an object, in enumeration order. -/
def keysOf : PropList → List String
  | .nil => []
  | .cons k _ rest => k :: keysOf rest

def plIsEmpty : PropList → Bool
  | .nil => true
  | .cons _ _ _ => false

/-- JS `v instanceof Object`: true for plain objects, functions and class
instances; false for primitives and `undefined`. -/
def isObject : OptVal → Bool
  | .objref _ _ => true
  | .obj _ => true
  | _ => false

/-- JS truthiness, as used by `if (options.identity)` and similar guards. -/
def truthy : OptVal → Bool
  | .undef => false
  | .num n => n ≠ 0
  | .str s => s ≠ ""
  | .boolean b => b
  | _ => true

/-- The enumerable own properties of a value (what `for..in` visits);
primitives have none. -/
def ownProps : OptVal → PropList
  | .obj l => l
  | .objref _ l => l
  | _ => .nil

/-- Property read on an arbitrary value, `v.k` (reading a property of a
truthy primitive yields `undefined`). -/
def jsGet (v : OptVal) (k : String) : OptVal := getProp (ownProps v) k

/-- JS string coercion as used by template-literal interpolation. -/
def optToString : OptVal → String
  | .undef => "undefined"
  | .num n => toString n
  | .str s => s
  | .boolean b => toString b
  | .objref tag _ => tag
  | .obj _ => "[object Object]"

/-- JS strict equality `===` restricted to the values that occur as option
fields: primitives compare by value; non-plain objects compare by reference
tag (two mentions of one tag denote the same object); two plain object
literals are distinct references, hence never strictly equal. -/
def strictEq : OptVal → OptVal → Bool
  | .undef, .undef => true
  | .num a, .num b => a = b
  | .str a, .str b => a = b
  | .boolean a, .boolean b => a = b
  | .objref a _, .objref b _ => a = b
  | _, _ => false

/-- JS `String.prototype.endsWith`, as `prop.endsWith('Options')` in
`_mergeOptions`.  (Defined over the character lists so that it computes by
kernel reduction; the core `String.endsWith` is extensionally the same
function.) -/
def strEndsWith (s post : String) : Bool := List.isSuffixOf post.data s.data

/-- Error text thrown by strict-mode JS when a property is created on a
primitive value. -/
def primAssignMsg : String := "TypeError: Cannot create property on primitive value"

/-!
`Gateway._mergeOptions(defaultOptions, suppliedOptions)` (gateway.js lines
77-89) iterates the supplied properties in order; a supplied value that is an
`Object` under a key ending in `'Options'` is merged recursively into the
existing default (or assigned wholesale when the default is `undefined`);
every other supplied value is assigned over the default.  The recursive case
mutates the nested default object in place, which the functional embedding
renders as `setProp` of the merged nested object.  Assigning a property onto
a primitive nested default throws in strict mode (class bodies are strict),
rendered as the `Except.error` case.
-/

def mergeOptions : PropList → PropList → Except String PropList
  | d, .nil => .ok d
  | d, .cons k (OptVal.obj sl) rest =>
    match
      (if strEndsWith k "Options" then
        match getProp d k with
        | .undef => Except.ok (setProp d k (OptVal.obj sl))
        | .obj dl => Except.map (fun ml => setProp d k (OptVal.obj ml)) (mergeOptions dl sl)
        | .objref nm dl =>
          Except.map (fun ml => setProp d k (OptVal.objref nm ml)) (mergeOptions dl sl)
        | _ => if plIsEmpty sl then Except.ok d else Except.error primAssignMsg
      else Except.ok (setProp d k (OptVal.obj sl))) with
    | .error e => .error e
    | .ok d' => mergeOptions d' rest
  | d, .cons k (OptVal.objref snm sl) rest =>
    match
      (if strEndsWith k "Options" then
        match getProp d k with
        | .undef => Except.ok (setProp d k (OptVal.objref snm sl))
        | .obj dl => Except.map (fun ml => setProp d k (OptVal.obj ml)) (mergeOptions dl sl)
        | .objref nm dl =>
          Except.map (fun ml => setProp d k (OptVal.objref nm ml)) (mergeOptions dl sl)
        | _ => if plIsEmpty sl then Except.ok d else Except.error primAssignMsg
      else Except.ok (setProp d k (OptVal.objref snm sl))) with
    | .error e => .error e
    | .ok d' => mergeOptions d' rest
  | d, .cons k v rest => mergeOptions (setProp d k v) rest
termination_by structural _ s => s

/-- The merge of one supplied property into the defaults (the body of the
`for..in` loop of `_mergeOptions`), stated over `mergeOptions` itself. -/
def mergePropTop (d : PropList) (k : String) (v : OptVal) : Except String PropList :=
  if isObject v && strEndsWith k "Options" then
    match getProp d k with
    | .undef => .ok (setProp d k v)
    | .obj dl => Except.map (fun ml => setProp d k (OptVal.obj ml)) (mergeOptions dl (ownProps v))
    | .objref nm dl =>
      Except.map (fun ml => setProp d k (OptVal.objref nm ml)) (mergeOptions dl (ownProps v))
    | _ => if plIsEmpty (ownProps v) then .ok d else .error primAssignMsg
  else .ok (setProp d k v)

theorem mergeOptions_nil (d : PropList) : mergeOptions d .nil = .ok d := rfl

/-- Unfolding equation: merging a non-empty supplied list merges the head
property, then the rest. -/
theorem mergeOptions_cons (d : PropList) (k : String) (v : OptVal) (rest : PropList) :
    mergeOptions d (.cons k v rest) =
      match mergePropTop d k v with
      | .error e => .error e
      | .ok d' => mergeOptions d' rest := by
  cases v <;> simp [mergeOptions, mergePropTop, isObject, ownProps]

/-!
Data model of the Gateway and its collaborators.

External collaborators (fabric-client `Client`, the wallet, Node's `require`)
are abstract interfaces in the spec; their behaviour is supplied through
`Env` and `ClientModel`.  Network instances are identified by allocation
number so that JS reference equality is expressible.
-/

/-- The `User` context that `wallet.setUserContext` establishes; the gateway
reads `getIdentity().getMSPId()` from it in `_createQueryHandler`. -/
structure UserContext where
  label : String
  mspId : String
deriving DecidableEq, Repr

/-- Result of `wallet.export(label)`: a TLS certificate and private key. -/
structure TlsCred where
  certificate : String
  privateKey : String
deriving DecidableEq, Repr

/-- The fabric-client `Client` state the gateway touches: the names known to
its channel cache / connection profile, and the TLS client credential set by
`setTlsClientCertAndKey(cert, key)` (stored as the two raw values passed). -/
structure ClientModel where
  channels : List String
  tlsCert : Option (OptVal × OptVal)
deriving DecidableEq, Repr

/-- What `new Network(this, channel)` + `await newNetwork._initialize(discovery)`
establishes, as far as the gateway observes it: the channel the Network wraps,
the discovery options passed, and that initialization completed. -/
structure NetworkRec where
  channelName : String
  discovery : OptVal
  initDone : Bool
deriving DecidableEq, Repr

/-- The query handler built by `_createQueryHandler`: records the constructor
arguments `(channel, currentmspId, peerMap, queryHandlerOptions)` and that
`await queryHandler.initialize()` ran. -/
structure QueryHandlerInstance where
  className : String
  channel : String
  mspId : String
  peers : List String
  handlerOptions : OptVal
  initDone : Bool
deriving DecidableEq, Repr

/-- The Gateway instance state.  `networks` is the `Map` from channel name to
Network, with Networks named by allocation number (`nextNetworkId` counts
allocations; distinct numbers are distinct JS object references).
`builtNetworks` records each constructed Network.  `wallet` is set to `null`
in the constructor and never reassigned anywhere in gateway.js. -/
structure Gateway where
  client : Option ClientModel
  wallet : Option Unit
  networks : List (String × Nat)
  options : PropList
  currentIdentity : Option UserContext
  queryHandlerClass : Option String
  nextNetworkId : Nat
  builtNetworks : List (Nat × NetworkRec)
deriving DecidableEq, Repr

/-- The `config` argument of `connect`: either a common connection profile
(path or JSON — both go through `Client.loadFromConfig`, yielding a fresh
client knowing the profile's channels), or a pre-configured `Client`
instance used as-is. -/
inductive ConnectConfig where
  | ccp : List String → ConnectConfig
  | clientInstance : ClientModel → ConnectConfig
deriving DecidableEq, Repr

/-- Behaviour of the external collaborators consumed by `connect`:
`wallet.setUserContext` (which user context an identity value establishes),
`wallet.export` (TLS credential for a label), and Node's `require` (loading
a query-handler module reference: the loaded class, or the load error). -/
structure Env where
  setUserContext : OptVal → UserContext
  exportTls : OptVal → TlsCred
  requireModule : OptVal → Except String String

/-- The default event handler options of the constructor: commit timeout 300
seconds and the MSPID_SCOPE_ALLFORTX strategy. -/
def defaultEventHandlerOptions : PropList :=
  .cons "commitTimeout" (.num 300)
    (.cons "strategy" (.objref "MSPID_SCOPE_ALLFORTX" .nil) .nil)

/-- The default options installed by the Gateway constructor (gateway.js
lines 97-109).  `initDiscovery` is the value of the static config setting
`Client.getConfigSetting('initialize-with-discovery', true)`. -/
def Gateway.defaultOptions (initDiscovery : Bool) : PropList :=
  .cons "queryHandler" (.str "./impl/query/defaultqueryhandler")
    (.cons "queryHandlerOptions" (.obj .nil)
      (.cons "eventHandlerOptions" (.obj defaultEventHandlerOptions)
        (.cons "discovery" (.obj (.cons "enabled" (.boolean initDiscovery) .nil)) .nil)))

/-- The constructor `new Gateway()` (gateway.js lines 91-110). -/
def Gateway.construct (initDiscovery : Bool) : Gateway :=
  { client := none
    wallet := none
    networks := []
    options := Gateway.defaultOptions initDiscovery
    currentIdentity := none
    queryHandlerClass := none
    nextNetworkId := 0
    builtNetworks := [] }

def walletErrorMsg : String := "A wallet must be assigned to a Gateway instance"

/-- The deletion step of `connect` (gateway.js lines 141-145): if a
queryHandler was supplied and differs (`!==`) from the currently configured
one, the current queryHandlerOptions are deleted before merging. -/
def connectOpts1 (st : Gateway) (opts : PropList) : PropList :=
  if truthy (getProp opts "queryHandler") &&
      !(strictEq (getProp st.options "queryHandler") (getProp opts "queryHandler")) then
    delProp st.options "queryHandlerOptions"
  else st.options

/-- The client established by `connect` (gateway.js lines 150-158): load
from the connection profile, or adopt the supplied Client instance. -/
def baseClient : ConnectConfig → ClientModel
  | .ccp chans => { channels := chans, tlsCert := none }
  | .clientInstance c => c

/-- The TLS credential assignment of `connect` (gateway.js lines 166-173):
a supplied `clientTlsIdentity` is exported from the wallet and assigned;
`tlsInfo` is assigned only when no `clientTlsIdentity` was supplied. -/
def applyTls (c : ClientModel) (opts : PropList) (env : Env) : ClientModel :=
  let c1 :=
    if truthy (getProp opts "clientTlsIdentity") then
      { c with tlsCert := some (OptVal.str (env.exportTls (getProp opts "clientTlsIdentity")).certificate,
                                OptVal.str (env.exportTls (getProp opts "clientTlsIdentity")).privateKey) }
    else c
  if truthy (getProp opts "tlsInfo") && !(truthy (getProp opts "clientTlsIdentity")) then
    { c1 with tlsCert := some (jsGet (getProp opts "tlsInfo") "certificate",
                               jsGet (getProp opts "tlsInfo") "key") }
  else c1

/-- The identity step of `connect` (gateway.js lines 160-164): a supplied
identity establishes a new user context; otherwise `currentIdentity` is left
as it was. -/
def connectIdentity (st : Gateway) (opts : PropList) (env : Env) : Option UserContext :=
  if truthy (getProp opts "identity") then some (env.setUserContext (getProp opts "identity"))
  else st.currentIdentity

/-- The query handler plugin load of `connect` (gateway.js lines 175-184):
when `this.options.queryHandler` is set, `require` it; a load failure throws
an error naming the module reference. -/
def loadQueryHandlerClass (merged : PropList) (prior : Option String) (env : Env) :
    Except String (Option String) :=
  if truthy (getProp merged "queryHandler") then
    match env.requireModule (getProp merged "queryHandler") with
    | .ok cls => .ok (some cls)
    | .error e =>
      .error ("unable to load provided query handler: " ++
        optToString (getProp merged "queryHandler") ++ ". Error " ++ e)
  else .ok prior

/-- Method `Gateway.connect(config, options)` (gateway.js lines 132-185).  The
embedding returns `Except.error` for a throw; gateway.js performs the option
merge and client/identity/TLS assignments before the query-handler load, so a
load failure leaves those mutations behind — no claim depends on the state
after a throw, and the error value carries the thrown message. -/
def Gateway.connect (st : Gateway) (config : ConnectConfig) (options : Option PropList)
    (env : Env) : Except String Gateway :=
  match options with
  | none => .error walletErrorMsg
  | some opts =>
    if truthy (getProp opts "wallet") then
      match mergeOptions (connectOpts1 st opts) opts with
      | .error e => .error e
      | .ok merged =>
        match loadQueryHandlerClass merged st.queryHandlerClass env with
        | .error e => .error e
        | .ok qhc =>
          .ok { st with
                client := some (applyTls (baseClient config) opts env)
                options := merged
                currentIdentity := connectIdentity st opts env
                queryHandlerClass := qhc }
    else .error walletErrorMsg

/-- Method `getCurrentIdentity()` (gateway.js lines 192-195). -/
def Gateway.getCurrentIdentity (st : Gateway) : Option UserContext := st.currentIdentity

/-- Method `getClient()` (gateway.js lines 202-205). -/
def Gateway.getClient (st : Gateway) : Option ClientModel := st.client

/-- Method `getOptions()` (gateway.js lines 211-214). -/
def Gateway.getOptions (st : Gateway) : PropList := st.options

/-- Method `disconnect()` (gateway.js lines 219-225): calls `_dispose()` on every
cached Network (in Map iteration order), then clears the cache.  The first
component is the list of Networks whose `_dispose` was invoked, in order. -/
def Gateway.disconnect (st : Gateway) : List Nat × Gateway :=
  (st.networks.map Prod.snd, { st with networks := [] })

/-- Lookup (`Map.get`) over the network cache. -/
def lookupNetwork : List (String × Nat) → String → Option Nat
  | [], _ => none
  | (n, id) :: rest, name => if n = name then some id else lookupNetwork rest name

/-- Modelled from the spec: fabric-client's `Client.getChannel(name, false)`
and `Client.newChannel(name)` are not among the provided sources (the client
is an external collaborator).  `getChannel(name, false)` returns the channel
when the name is in the client's in-memory channel cache or its connection
profile, and `null` otherwise; `newChannel(name)` then creates a channel
object for that name and caches it in the client. -/
def ClientModel.getOrNewChannel (c : ClientModel) (name : String) : ClientModel :=
  if name ∈ c.channels then c else { c with channels := c.channels ++ [name] }

/-- Method `getNetwork(networkName)` (gateway.js lines 232-250).  Returns the
Network's reference (allocation number), whether a new Network was built and
initialized by this call, and the updated gateway. -/
def Gateway.getNetwork (st : Gateway) (networkName : String) :
    Except String (Nat × Bool × Gateway) :=
  match lookupNetwork st.networks networkName with
  | some id => .ok (id, false, st)
  | none =>
    match st.client with
    | none => .error "TypeError: Cannot read properties of null (reading getChannel)"
    | some c =>
      let id := st.nextNetworkId
      .ok (id, true,
        { st with
          client := some (c.getOrNewChannel networkName)
          networks := st.networks ++ [(networkName, id)]
          builtNetworks := st.builtNetworks ++
            [(id, { channelName := networkName
                    discovery := getProp st.options "discovery"
                    initDone := true })]
          nextNetworkId := id + 1 })

/-- Method `_createQueryHandler(channel, peerMap)` (gateway.js lines 252-265): when
a query handler class was loaded, construct it with
`(channel, currentmspId, peerMap, this.options.queryHandlerOptions)` and
await its `initialize()`; otherwise return null.  Reading the MSP ID off an
absent current identity throws. -/
def Gateway.createQueryHandler (st : Gateway) (channel : String) (peers : List String) :
    Except String (Option QueryHandlerInstance) :=
  match st.queryHandlerClass with
  | none => .ok none
  | some cls =>
    match st.currentIdentity with
    | none => .error "TypeError: Cannot read properties of undefined (reading getIdentity)"
    | some u =>
      .ok (some { className := cls
                  channel := channel
                  mspId := u.mspId
                  peers := peers
                  handlerOptions := getProp st.options "queryHandlerOptions"
                  initDone := true })

/-- Whether an `Except` result is a success (no JS throw). -/
def isOkE {ε α : Type} : Except ε α → Bool
  | .ok _ => true
  | .error _ => false

/-! Basic properties of the property-list operations. -/

/-- Spine induction for property lists (no induction hypothesis is needed for
the nested values in any of the lemmas below). -/
@[induction_eliminator]
theorem PropList.inductionOn {motive : PropList → Prop}
    (nil : motive PropList.nil)
    (cons : ∀ (k : String) (v : OptVal) (rest : PropList),
      motive rest → motive (PropList.cons k v rest)) :
    ∀ s, motive s
  | .nil => nil
  | .cons k v rest => cons k v rest (PropList.inductionOn nil cons rest)
termination_by structural s => s

theorem getProp_setProp_self (d : PropList) (k : String) (v : OptVal) :
    getProp (setProp d k v) k = v := by
  induction d with
  | nil => simp [setProp, getProp]
  | cons k' v' rest ih =>
    by_cases h : k' = k <;> simp [setProp, getProp, h, ih]

theorem getProp_setProp_ne (d : PropList) (k : String) (v : OptVal) (k' : String)
    (h : k' ≠ k) : getProp (setProp d k v) k' = getProp d k' := by
  induction d with
  | nil =>
    simp only [setProp, getProp]
    rw [if_neg (Ne.symm h)]
  | cons k0 v0 rest ih =>
    by_cases h0 : k0 = k
    · subst h0
      simp only [setProp, if_pos rfl, getProp]
      rw [if_neg (Ne.symm h), if_neg (Ne.symm h)]
    · simp only [setProp, if_neg h0, getProp]
      by_cases h1 : k0 = k'
      · rw [if_pos h1, if_pos h1]
      · rw [if_neg h1, if_neg h1, ih]

theorem getProp_delProp_self (d : PropList) (k : String) :
    getProp (delProp d k) k = .undef := by
  induction d with
  | nil => simp [delProp, getProp]
  | cons k0 v0 rest ih =>
    by_cases h0 : k0 = k <;> simp [delProp, getProp, h0, ih]

theorem getProp_delProp_ne (d : PropList) (k k' : String) (h : k' ≠ k) :
    getProp (delProp d k) k' = getProp d k' := by
  induction d with
  | nil => simp [delProp, getProp]
  | cons k0 v0 rest ih =>
    by_cases h0 : k0 = k
    · subst h0
      simp only [delProp, getProp, eq_self_iff_true, if_true]
      rw [if_neg (Ne.symm h), ih]
    · simp only [delProp, if_neg h0, getProp]
      by_cases h1 : k0 = k'
      · rw [if_pos h1, if_pos h1]
      · rw [if_neg h1, if_neg h1, ih]

theorem getProp_notMem (s : PropList) (k : String) (h : k ∉ keysOf s) :
    getProp s k = .undef := by
  induction s with
  | nil => rfl
  | cons k0 v0 rest ih =>
    simp only [keysOf, List.mem_cons, not_or] at h
    simp only [getProp]
    rw [if_neg (Ne.symm h.1)]
    exact ih h.2

theorem exceptMap_ok {ε α β : Type} (f : α → β) (e : Except ε α) (b : β)
    (h : Except.map f e = .ok b) : ∃ a, e = .ok a ∧ b = f a := by
  cases e with
  | error err => simp [Except.map] at h
  | ok a =>
    simp [Except.map] at h
    exact ⟨a, rfl, h.symm⟩

/-- A single-property merge step never touches other keys. -/
theorem mergePropTop_ok_ne (d : PropList) (k : String) (v : OptVal) (d₁ : PropList)
    (k' : String) (h : mergePropTop d k v = .ok d₁) (hne : k' ≠ k) :
    getProp d₁ k' = getProp d k' := by
  unfold mergePropTop at h
  by_cases hc : (isObject v && strEndsWith k "Options") = true
  · rw [if_pos hc] at h
    cases hd : getProp d k with
    | undef =>
      rw [hd] at h
      simp only [Except.ok.injEq] at h
      rw [← h]
      exact getProp_setProp_ne d k v k' hne
    | obj dl =>
      rw [hd] at h
      obtain ⟨ml, _, hb⟩ := exceptMap_ok _ _ _ h
      rw [hb]
      exact getProp_setProp_ne d k _ k' hne
    | objref nm dl =>
      rw [hd] at h
      obtain ⟨ml, _, hb⟩ := exceptMap_ok _ _ _ h
      rw [hb]
      exact getProp_setProp_ne d k _ k' hne
    | num a =>
      rw [hd] at h
      by_cases he : plIsEmpty (ownProps v) = true <;> simp [he] at h
      rw [← h]
    | str a =>
      rw [hd] at h
      by_cases he : plIsEmpty (ownProps v) = true <;> simp [he] at h
      rw [← h]
    | boolean a =>
      rw [hd] at h
      by_cases he : plIsEmpty (ownProps v) = true <;> simp [he] at h
      rw [← h]
  · rw [if_neg hc] at h
    simp only [Except.ok.injEq] at h
    rw [← h]
    exact getProp_setProp_ne d k v k' hne

/-- Keys not among the supplied keys are untouched by the merge. -/
theorem mergeOptions_ok_notMem (s : PropList) : ∀ (d d' : PropList) (k : String),
    mergeOptions d s = .ok d' → k ∉ keysOf s → getProp d' k = getProp d k := by
  induction s with
  | nil =>
    intro d d' k h _
    rw [mergeOptions_nil] at h
    simp only [Except.ok.injEq] at h
    rw [h]
  | cons k0 v0 rest ih =>
    intro d d' k h hk
    simp [keysOf] at hk
    rw [mergeOptions_cons] at h
    cases hm : mergePropTop d k0 v0 with
    | error e => rw [hm] at h; exact absurd h (by simp)
    | ok d₁ =>
      rw [hm] at h
      rw [ih d₁ d' k h hk.2]
      exact mergePropTop_ok_ne d k0 v0 d₁ k hm hk.1

/-- A supplied flat property (not an object under an `...Options` key)
overrides the default: the merged object maps it to the supplied value. -/
theorem mergeOptions_ok_flat (s : PropList) : ∀ (d d' : PropList) (k : String),
    (keysOf s).Nodup → k ∈ keysOf s →
    (isObject (getProp s k) && strEndsWith k "Options") = false →
    mergeOptions d s = .ok d' → getProp d' k = getProp s k := by
  induction s with
  | nil => intro d d' k _ hk; simp [keysOf] at hk
  | cons k0 v0 rest ih =>
    intro d d' k hnd hk hflat h
    rw [mergeOptions_cons] at h
    cases hm : mergePropTop d k0 v0 with
    | error e => rw [hm] at h; exact absurd h (by simp)
    | ok d₁ =>
      rw [hm] at h
      simp only [keysOf, List.nodup_cons] at hnd
      by_cases h0 : k0 = k
      · subst h0
        have hv : getProp (PropList.cons k0 v0 rest) k0 = v0 := by simp [getProp]
        rw [hv] at hflat ⊢
        rw [mergeOptions_ok_notMem rest d₁ d' k0 h hnd.1]
        have : mergePropTop d k0 v0 = .ok (setProp d k0 v0) := by
          unfold mergePropTop
          rw [if_neg (by simp [hflat])]
        rw [this] at hm
        simp only [Except.ok.injEq] at hm
        rw [← hm]
        exact getProp_setProp_self d k0 v0
      · have hkr : k ∈ keysOf rest := by
          simp [keysOf] at hk
          exact hk.resolve_left fun hh => h0 hh.symm
        have hs : getProp (PropList.cons k0 v0 rest) k = getProp rest k := by
          simp [getProp, h0]
        rw [hs] at hflat ⊢
        exact ih d₁ d' k hnd.2 hkr hflat h

/-- When the default lacks a key entirely, the merge installs the supplied
binding for it, whatever its shape. -/
theorem mergeOptions_ok_undef (s : PropList) : ∀ (d d' : PropList) (k : String),
    (keysOf s).Nodup → getProp d k = .undef →
    mergeOptions d s = .ok d' → getProp d' k = getProp s k := by
  induction s with
  | nil =>
    intro d d' k _ hu h
    rw [mergeOptions_nil] at h
    simp only [Except.ok.injEq] at h
    rw [h] at hu
    rw [hu]
    rfl
  | cons k0 v0 rest ih =>
    intro d d' k hnd hu h
    rw [mergeOptions_cons] at h
    cases hm : mergePropTop d k0 v0 with
    | error e => rw [hm] at h; exact absurd h (by simp)
    | ok d₁ =>
      rw [hm] at h
      simp only [keysOf, List.nodup_cons] at hnd
      by_cases h0 : k0 = k
      · subst h0
        have hset : d₁ = setProp d k0 v0 := by
          unfold mergePropTop at hm
          by_cases hc : (isObject v0 && strEndsWith k0 "Options") = true
          · rw [if_pos hc, hu] at hm
            simp only [Except.ok.injEq] at hm
            exact hm.symm
          · rw [if_neg hc] at hm
            simp only [Except.ok.injEq] at hm
            exact hm.symm
        rw [mergeOptions_ok_notMem rest d₁ d' k0 h hnd.1, hset,
          getProp_setProp_self d k0 v0]
        simp [getProp]
      · have hu1 : getProp d₁ k = .undef := by
          rw [mergePropTop_ok_ne d k0 v0 d₁ k hm fun hh => h0 hh.symm]
          exact hu
        have hs : getProp (PropList.cons k0 v0 rest) k = getProp rest k := by
          simp [getProp, h0]
        rw [hs]
        exact ih d₁ d' k hnd.2 hu1 h

/-- A supplied nested object under an `...Options` key merges recursively
into an existing default object: the merged value at that key is exactly the
recursive merge of the two nested objects. -/
theorem mergeOptions_ok_nested (s : PropList) : ∀ (d d' : PropList) (k : String)
    (sl dl : PropList),
    (keysOf s).Nodup → getProp s k = .obj sl → k ∈ keysOf s →
    strEndsWith k "Options" = true → getProp d k = .obj dl →
    mergeOptions d s = .ok d' →
    ∃ ml, mergeOptions dl sl = .ok ml ∧ getProp d' k = .obj ml := by
  induction s with
  | nil => intro d d' k sl dl _ _ hk; simp [keysOf] at hk
  | cons k0 v0 rest ih =>
    intro d d' k sl dl hnd hks hk hends hd h
    rw [mergeOptions_cons] at h
    cases hm : mergePropTop d k0 v0 with
    | error e => rw [hm] at h; exact absurd h (by simp)
    | ok d₁ =>
      rw [hm] at h
      simp only [keysOf, List.nodup_cons] at hnd
      by_cases h0 : k0 = k
      · subst h0
        have hv : v0 = .obj sl := by simpa [getProp] using hks
        subst hv
        unfold mergePropTop at hm
        rw [if_pos (by simp [isObject, hends]), hd] at hm
        obtain ⟨ml, hml, hb⟩ := exceptMap_ok _ _ _ hm
        refine ⟨ml, hml, ?_⟩
        rw [mergeOptions_ok_notMem rest d₁ d' k0 h hnd.1, hb]
        simpa [ownProps] using getProp_setProp_self d k0 (OptVal.obj ml)
      · have hkr : k ∈ keysOf rest := by
          simp [keysOf] at hk
          exact hk.resolve_left fun hh => h0 hh.symm
        have hks' : getProp rest k = .obj sl := by
          simpa [getProp, h0] using hks
        have hd1 : getProp d₁ k = .obj dl := by
          rw [mergePropTop_ok_ne d k0 v0 d₁ k hm fun hh => h0 hh.symm]
          exact hd
        exact ih d₁ d' k sl dl hnd.2 hks' hkr hends hd1 h

/-! Inversion and construction lemmas for `connect`, and the gateway
well-formedness invariant (network references are distinct allocations). -/

/-- A successful `connect` run determines the returned gateway: the wallet
check passed, the option merge succeeded, the query-handler load succeeded,
and the new state is the old one with client, options, identity and handler
class updated. -/
theorem connect_ok_elim (st : Gateway) (config : ConnectConfig) (opts : PropList)
    (env : Env) (st' : Gateway)
    (h : st.connect config (some opts) env = .ok st') :
    truthy (getProp opts "wallet") = true ∧
    ∃ merged qhc,
      mergeOptions (connectOpts1 st opts) opts = .ok merged ∧
      loadQueryHandlerClass merged st.queryHandlerClass env = .ok qhc ∧
      st' = { st with
              client := some (applyTls (baseClient config) opts env)
              options := merged
              currentIdentity := connectIdentity st opts env
              queryHandlerClass := qhc } := by
  simp only [Gateway.connect] at h
  by_cases hw : truthy (getProp opts "wallet") = true
  · rw [if_pos hw] at h
    cases hm : mergeOptions (connectOpts1 st opts) opts with
    | error e => rw [hm] at h; exact absurd h (by simp)
    | ok merged =>
      rw [hm] at h
      dsimp only [] at h
      cases hq : loadQueryHandlerClass merged st.queryHandlerClass env with
      | error e => rw [hq] at h; exact absurd h (by simp)
      | ok qhc =>
        rw [hq] at h
        dsimp only [] at h
        simp only [Except.ok.injEq] at h
        exact ⟨hw, merged, qhc, rfl, hq, h.symm⟩
  · rw [if_neg hw] at h
    exact absurd h (by simp)

/-- Forward run of a successful `connect`. -/
theorem connect_ok_intro (st : Gateway) (config : ConnectConfig) (opts : PropList)
    (env : Env) (merged : PropList) (qhc : Option String)
    (hw : truthy (getProp opts "wallet") = true)
    (hm : mergeOptions (connectOpts1 st opts) opts = .ok merged)
    (hq : loadQueryHandlerClass merged st.queryHandlerClass env = .ok qhc) :
    st.connect config (some opts) env =
      .ok { st with
            client := some (applyTls (baseClient config) opts env)
            options := merged
            currentIdentity := connectIdentity st opts env
            queryHandlerClass := qhc } := by
  simp only [Gateway.connect]
  rw [if_pos hw, hm]
  dsimp only []
  rw [hq]

/-- Forward run of a `connect` whose query-handler load fails. -/
theorem connect_qh_error (st : Gateway) (config : ConnectConfig) (opts : PropList)
    (env : Env) (merged : PropList) (e : String)
    (hw : truthy (getProp opts "wallet") = true)
    (hm : mergeOptions (connectOpts1 st opts) opts = .ok merged)
    (hq : loadQueryHandlerClass merged st.queryHandlerClass env = .error e) :
    st.connect config (some opts) env = .error e := by
  simp only [Gateway.connect]
  rw [if_pos hw, hm]
  dsimp only []
  rw [hq]

theorem lookupNetwork_append_self (l : List (String × Nat)) (name : String) (id : Nat)
    (h : lookupNetwork l name = none) :
    lookupNetwork (l ++ [(name, id)]) name = some id := by
  induction l with
  | nil => simp [lookupNetwork]
  | cons p rest ih =>
    obtain ⟨n, i⟩ := p
    simp only [lookupNetwork, List.cons_append] at h ⊢
    by_cases hn : n = name
    · rw [if_pos hn] at h
      exact absurd h (by simp)
    · rw [if_neg hn] at h ⊢
      exact ih h

/-- Well-formedness: cached Network references are pairwise distinct and
below the allocation counter.  This holds for every gateway reachable from
the constructor (see the preservation lemmas below). -/
def GatewayWF (st : Gateway) : Prop :=
  (st.networks.map Prod.snd).Nodup ∧
  ∀ id ∈ st.networks.map Prod.snd, id < st.nextNetworkId

theorem construct_WF (initDiscovery : Bool) : GatewayWF (Gateway.construct initDiscovery) := by
  constructor <;> simp [Gateway.construct]

theorem connect_WF (st : Gateway) (config : ConnectConfig) (opts : Option PropList)
    (env : Env) (st' : Gateway) (h : st.connect config opts env = .ok st')
    (hwf : GatewayWF st) : GatewayWF st' := by
  cases opts with
  | none => exact absurd h (by simp [Gateway.connect])
  | some opts =>
    obtain ⟨-, merged, qhc, -, -, hst⟩ := connect_ok_elim st config opts env st' h
    rw [hst]
    exact hwf

theorem disconnect_WF (st : Gateway) :
    GatewayWF (st.disconnect).2 := by
  constructor <;> simp [Gateway.disconnect]

theorem getNetwork_WF (st : Gateway) (name : String) (id : Nat) (b : Bool)
    (st' : Gateway) (h : st.getNetwork name = .ok (id, b, st'))
    (hwf : GatewayWF st) : GatewayWF st' := by
  simp only [Gateway.getNetwork] at h
  cases hl : lookupNetwork st.networks name with
  | some i =>
    rw [hl] at h
    simp only [Except.ok.injEq, Prod.mk.injEq] at h
    rw [← h.2.2]
    exact hwf
  | none =>
    rw [hl] at h
    cases hc : st.client with
    | none => rw [hc] at h; exact absurd h (by simp)
    | some c =>
      rw [hc] at h
      simp only [Except.ok.injEq, Prod.mk.injEq] at h
      rw [← h.2.2]
      obtain ⟨hnd, hlt⟩ := hwf
      constructor
      · simp only [List.map_append, List.map_cons, List.map_nil]
        rw [List.nodup_append]
        refine ⟨hnd, List.nodup_singleton _, ?_⟩
        intro x hx
        simp only [List.mem_singleton]
        intro he
        exact absurd (hlt x hx) (by rw [he]; omega)
      · intro i hi
        dsimp only at hi ⊢
        simp only [List.map_append, List.map_cons, List.map_nil,
          List.mem_append, List.mem_singleton] at hi
        rcases hi with hi | hi
        · have := hlt i hi
          omega
        · omega

/-- Running `getNetwork` never changes the current identity (used for C7). -/
theorem getNetwork_preserves_identity (st : Gateway) (name : String)
    (id : Nat) (b : Bool) (st₂ : Gateway)
    (h : st.getNetwork name = .ok (id, b, st₂)) :
    st₂.currentIdentity = st.currentIdentity := by
  simp only [Gateway.getNetwork] at h
  cases hl : lookupNetwork st.networks name with
  | some i =>
    rw [hl] at h
    simp only [Except.ok.injEq, Prod.mk.injEq] at h
    rw [← h.2.2]
  | none =>
    rw [hl] at h
    cases hc : st.client with
    | none => rw [hc] at h; exact absurd h (by simp)
    | some c =>
      rw [hc] at h
      simp only [Except.ok.injEq, Prod.mk.injEq] at h
      rw [← h.2.2]

/-! Concrete fixtures used by the witnesses and counterexample. -/

/-- External collaborators that behave: the wallet yields a user context for
any identity label, exports a fixed TLS credential, and every module
reference loads. -/
def envW : Env :=
  { setUserContext := fun v => { label := optToString v, mspId := "Org1MSP" }
    exportTls := fun _ => { certificate := "tlsCert", privateKey := "tlsKey" }
    requireModule := fun v => .ok ("class:" ++ optToString v) }

/-- Collaborators whose module loading always fails. -/
def envFail : Env :=
  { setUserContext := fun v => { label := optToString v, mspId := "Org1MSP" }
    exportTls := fun _ => { certificate := "tlsCert", privateKey := "tlsKey" }
    requireModule := fun _ => .error "Cannot find module" }

def gwBase : Gateway := Gateway.construct true

def clientW : ClientModel := { channels := ["mychannel"], tlsCert := none }

def gwConnected : Gateway := { gwBase with client := some clientW }

def gwAfterFirst : Gateway :=
  match gwConnected.getNetwork "mychannel" with
  | .ok (_, _, s) => s
  | .error _ => gwConnected

/-- C1: `Gateway.getNetwork` is idempotent per channel name — once a call
returned Network `id` for `name`, a repeat call returns the identical
reference `id`, builds and initializes nothing (`false`), and leaves the
gateway untouched. -/
theorem getNetwork_idempotent (st : Gateway) (name : String) (id : Nat) (b : Bool)
    (st₁ : Gateway) (h : st.getNetwork name = .ok (id, b, st₁)) :
    st₁.getNetwork name = .ok (id, false, st₁) := by
  simp only [Gateway.getNetwork] at h ⊢
  cases hl : lookupNetwork st.networks name with
  | some i =>
    rw [hl] at h
    simp only [Except.ok.injEq, Prod.mk.injEq] at h
    obtain ⟨hid, -, hst⟩ := h
    rw [← hst, hl, hid]
  | none =>
    rw [hl] at h
    cases hc : st.client with
    | none => rw [hc] at h; exact absurd h (by simp)
    | some c =>
      rw [hc] at h
      simp only [Except.ok.injEq, Prod.mk.injEq] at h
      obtain ⟨hid, -, hst⟩ := h
      rw [← hst]
      dsimp only
      rw [lookupNetwork_append_self st.networks name st.nextNetworkId hl, hid]

/-- Witness for C1: a concrete connected gateway; the first call builds
Network 0, the second returns the same reference without building. -/
theorem getNetwork_idempotent_witness :
    gwAfterFirst.getNetwork "mychannel" = .ok (0, false, gwAfterFirst) :=
  getNetwork_idempotent gwConnected "mychannel" 0 true gwAfterFirst (by rfl)

def gwTwoNets : Gateway :=
  { gwConnected with networks := [("chanA", 0), ("chanB", 1)], nextNetworkId := 2 }

/-- C2: `disconnect` calls `_dispose` on every cached Network exactly once
(the dispose log equals the cached references, each once), leaves the cache
empty, and any later successful `getNetwork` builds afresh. -/
theorem disconnect_disposes_all (st : Gateway)
    (hwf : (st.networks.map Prod.snd).Nodup) :
    (st.disconnect).1 = st.networks.map Prod.snd ∧
    (∀ id ∈ st.networks.map Prod.snd, ((st.disconnect).1).count id = 1) ∧
    (st.disconnect).2.networks = [] ∧
    (∀ name id b st₂, (st.disconnect).2.getNetwork name = .ok (id, b, st₂) → b = true) := by
  refine ⟨rfl, ?_, rfl, ?_⟩
  · intro id hid
    exact List.count_eq_one_of_mem hwf hid
  · intro name id b st₂ h
    simp only [Gateway.disconnect, Gateway.getNetwork] at h
    simp only [lookupNetwork] at h
    cases hc : st.client with
    | none => rw [hc] at h; exact absurd h (by simp)
    | some c =>
      rw [hc] at h
      simp only [Except.ok.injEq, Prod.mk.injEq] at h
      exact h.2.1.symm

/-- Witness for C2 on a gateway holding two Networks. -/
theorem disconnect_disposes_all_witness :
    (gwTwoNets.disconnect).1 = [0, 1] ∧
    ((gwTwoNets.disconnect).1).count 0 = 1 ∧
    ((gwTwoNets.disconnect).1).count 1 = 1 ∧
    (gwTwoNets.disconnect).2.networks = [] :=
  ⟨by rfl,
   (disconnect_disposes_all gwTwoNets (by decide)).2.1 0 (by decide),
   (disconnect_disposes_all gwTwoNets (by decide)).2.1 1 (by decide),
   (disconnect_disposes_all gwTwoNets (by decide)).2.2.1⟩

/-- C10: an unknown channel name is not an error — `getNetwork` creates a
fresh channel object on the client, builds and initializes a Network on it,
and caches it under the name. -/
theorem getNetwork_unknown_channel (st : Gateway) (c : ClientModel) (name : String)
    (hclient : st.client = some c)
    (hnc : lookupNetwork st.networks name = none)
    (hunk : name ∉ c.channels) :
    ∃ id st', st.getNetwork name = .ok (id, true, st') ∧
      (∃ c', st'.client = some c' ∧ name ∈ c'.channels) ∧
      lookupNetwork st'.networks name = some id ∧
      ∃ nr, (id, nr) ∈ st'.builtNetworks ∧ nr.channelName = name ∧ nr.initDone = true := by
  simp only [Gateway.getNetwork, hnc, hclient]
  refine ⟨st.nextNetworkId, _, rfl, ?_, ?_, ?_⟩
  · refine ⟨c.getOrNewChannel name, rfl, ?_⟩
    simp [ClientModel.getOrNewChannel, hunk]
  · dsimp only
    exact lookupNetwork_append_self st.networks name st.nextNetworkId hnc
  · exact ⟨{ channelName := name, discovery := getProp st.options "discovery", initDone := true },
      by simp, rfl, rfl⟩

def gwAfterNew : Gateway :=
  match gwConnected.getNetwork "newchan" with
  | .ok (_, _, s) => s
  | .error _ => gwConnected

/-- Witness for C10: "newchan" is in neither the channel cache nor the
profile of the concrete client, yet getNetwork succeeds, caches Network 0
under the name, and the client has gained the channel. -/
theorem getNetwork_unknown_channel_witness :
    lookupNetwork gwAfterNew.networks "newchan" = some 0 ∧
    "newchan" ∈ (clientW.getOrNewChannel "newchan").channels := by
  obtain ⟨id, st', h1, -, h3, -⟩ :=
    getNetwork_unknown_channel gwConnected clientW "newchan" rfl rfl (by decide)
  have he : gwConnected.getNetwork "newchan" = .ok (0, true, gwAfterNew) := by rfl
  rw [he] at h1
  simp only [Except.ok.injEq, Prod.mk.injEq] at h1
  obtain ⟨hid, -, hst⟩ := h1
  rw [← hid] at h3
  rw [← hst] at h3
  exact ⟨h3, by decide⟩

def optsNoIdentity : PropList := .cons "wallet" (.objref "walletA" .nil) .nil

/-- C3 counterexample: the claim says a call omitting the identity (or the
wallet) fails, but `connect` only checks the wallet — this call supplies a
wallet and no identity and succeeds. -/
theorem connect_no_identity_succeeds :
    isOkE (gwBase.connect (.ccp []) (some optsNoIdentity) envW) = true := by rfl

/-- C3 (amended): every call to `connect` whose options omit the required
wallet (or omit the options object entirely) fails immediately, before any
state change, with the configuration error "A wallet must be assigned to a
Gateway instance"; omitting only the identity does not by itself fail. -/
theorem connect_missing_wallet_fails (st : Gateway) (config : ConnectConfig)
    (env : Env) (opts : PropList) (hw : truthy (getProp opts "wallet") = false) :
    st.connect config none env = .error walletErrorMsg ∧
    st.connect config (some opts) env = .error walletErrorMsg := by
  constructor
  · rfl
  · simp only [Gateway.connect]
    rw [if_neg (by simp [hw])]

/-- Witness for the amended C3 at empty options. -/
theorem connect_missing_wallet_fails_witness :
    truthy (getProp PropList.nil "wallet") = false ∧
    gwBase.connect (.ccp []) (some PropList.nil) envW = .error walletErrorMsg :=
  ⟨by rfl, (connect_missing_wallet_fails gwBase (.ccp []) envW PropList.nil (by rfl)).2⟩

/-- C7: a gateway holds exactly one active identity — `connect` with an
identity establishes the wallet's user context for it (replacing any prior
one); `connect` without an identity keeps the prior one; `getNetwork` and
`disconnect` never change it. -/
theorem connect_identity_semantics (st : Gateway) (config : ConnectConfig)
    (opts : PropList) (env : Env) (st' : Gateway)
    (hc : st.connect config (some opts) env = .ok st') :
    (truthy (getProp opts "identity") = true →
      st'.getCurrentIdentity = some (env.setUserContext (getProp opts "identity"))) ∧
    (truthy (getProp opts "identity") = false →
      st'.getCurrentIdentity = st.getCurrentIdentity) ∧
    (∀ name id b st₂, st'.getNetwork name = .ok (id, b, st₂) →
      st₂.getCurrentIdentity = st'.getCurrentIdentity) ∧
    (st'.disconnect).2.getCurrentIdentity = st'.getCurrentIdentity := by
  obtain ⟨-, merged, qhc, -, -, hst⟩ := connect_ok_elim st config opts env st' hc
  refine ⟨?_, ?_, ?_, rfl⟩
  · intro hid
    rw [hst]
    simp [Gateway.getCurrentIdentity, connectIdentity, hid]
  · intro hid
    rw [hst]
    simp [Gateway.getCurrentIdentity, connectIdentity, hid, Gateway.getCurrentIdentity]
  · intro name id b st₂ h
    exact getNetwork_preserves_identity st' name id b st₂ h

def optsIdA : PropList :=
  .cons "wallet" (.objref "walletA" .nil) (.cons "identity" (.str "admin") .nil)

def gwConnA : Gateway :=
  match gwBase.connect (.ccp []) (some optsIdA) envW with
  | .ok s => s
  | .error _ => gwBase

/-- Witness for C7: after a concrete connect with identity "admin", the
current identity is the user context the wallet established for "admin". -/
theorem connect_identity_semantics_witness :
    gwConnA.getCurrentIdentity = some (envW.setUserContext (OptVal.str "admin")) :=
  (connect_identity_semantics gwBase (.ccp []) optsIdA envW gwConnA (by rfl)).1 (by rfl)

/-- C8: TLS credential precedence — a supplied `clientTlsIdentity` has its
wallet-exported certificate and key assigned to the client, and any supplied
`tlsInfo` is then ignored; `tlsInfo` is applied only when `clientTlsIdentity`
is absent. -/
theorem connect_tls_precedence (st : Gateway) (config : ConnectConfig)
    (opts : PropList) (env : Env) (st' : Gateway)
    (hc : st.connect config (some opts) env = .ok st') :
    (truthy (getProp opts "clientTlsIdentity") = true →
      ∃ c, st'.client = some c ∧
        c.tlsCert = some
          (OptVal.str (env.exportTls (getProp opts "clientTlsIdentity")).certificate,
           OptVal.str (env.exportTls (getProp opts "clientTlsIdentity")).privateKey)) ∧
    (truthy (getProp opts "clientTlsIdentity") = false →
      truthy (getProp opts "tlsInfo") = true →
      ∃ c, st'.client = some c ∧
        c.tlsCert = some (jsGet (getProp opts "tlsInfo") "certificate",
                          jsGet (getProp opts "tlsInfo") "key")) := by
  obtain ⟨-, merged, qhc, -, -, hst⟩ := connect_ok_elim st config opts env st' hc
  constructor
  · intro ht
    refine ⟨applyTls (baseClient config) opts env, by rw [hst], ?_⟩
    simp [applyTls, ht]
  · intro hf ht
    refine ⟨applyTls (baseClient config) opts env, by rw [hst], ?_⟩
    simp [applyTls, hf, ht]

def optsTls : PropList :=
  .cons "wallet" (.objref "walletA" .nil)
    (.cons "clientTlsIdentity" (.str "tlsUser")
      (.cons "tlsInfo"
        (.obj (.cons "certificate" (.str "infoCert") (.cons "key" (.str "infoKey") .nil)))
        .nil))

def gwConnTls : Gateway :=
  match gwBase.connect (.ccp []) (some optsTls) envW with
  | .ok s => s
  | .error _ => gwBase

/-- The TLS credential the gateway's client carries, if any. -/
def clientTlsOf (st : Gateway) : Option (OptVal × OptVal) :=
  match st.client with
  | some c => c.tlsCert
  | none => none

/-- Witness for C8: with both `clientTlsIdentity` and `tlsInfo` supplied, the
wallet-exported credential wins and the `tlsInfo` values are ignored. -/
theorem connect_tls_precedence_witness :
    clientTlsOf gwConnTls = some (OptVal.str "tlsCert", OptVal.str "tlsKey") := by
  obtain ⟨c, hc1, hc2⟩ :=
    (connect_tls_precedence gwBase (.ccp []) optsTls envW gwConnTls (by rfl)).1 (by rfl)
  simp only [clientTlsOf, hc1]
  exact hc2

/-- C9: when the supplied `queryHandler` differs from the configured one, the
previously configured `queryHandlerOptions` are deleted before the merge, so
the post-connect `queryHandlerOptions` are exactly the supplied ones (absent
if none were supplied); otherwise the existing ones are kept and merged with
any supplied ones. -/
theorem connect_queryHandlerOptions (st : Gateway) (config : ConnectConfig)
    (opts : PropList) (env : Env) (st' : Gateway)
    (hnd : (keysOf opts).Nodup)
    (hc : st.connect config (some opts) env = .ok st') :
    ((truthy (getProp opts "queryHandler") &&
        !(strictEq (getProp st.options "queryHandler") (getProp opts "queryHandler"))) = true →
      getProp st'.options "queryHandlerOptions" = getProp opts "queryHandlerOptions") ∧
    ((truthy (getProp opts "queryHandler") &&
        !(strictEq (getProp st.options "queryHandler") (getProp opts "queryHandler"))) = false →
      ("queryHandlerOptions" ∉ keysOf opts →
        getProp st'.options "queryHandlerOptions" = getProp st.options "queryHandlerOptions") ∧
      (∀ sl dl, getProp opts "queryHandlerOptions" = OptVal.obj sl →
        getProp st.options "queryHandlerOptions" = OptVal.obj dl →
        ∃ ml, mergeOptions dl sl = .ok ml ∧
          getProp st'.options "queryHandlerOptions" = OptVal.obj ml)) := by
  obtain ⟨-, merged, qhc, hm, -, hst⟩ := connect_ok_elim st config opts env st' hc
  have hopts : st'.options = merged := by rw [hst]
  rw [hopts]
  constructor
  · intro hcond
    have h1 : connectOpts1 st opts = delProp st.options "queryHandlerOptions" := by
      simp [connectOpts1, hcond]
    rw [h1] at hm
    exact mergeOptions_ok_undef opts _ merged "queryHandlerOptions" hnd
      (getProp_delProp_self st.options "queryHandlerOptions") hm
  · intro hcond
    have h1 : connectOpts1 st opts = st.options := by
      simp [connectOpts1, hcond]
    rw [h1] at hm
    constructor
    · intro hnotin
      exact mergeOptions_ok_notMem opts st.options merged "queryHandlerOptions" hm hnotin
    · intro sl dl hsl hdl
      have hk : "queryHandlerOptions" ∈ keysOf opts := by
        by_contra hno
        rw [getProp_notMem opts _ hno] at hsl
        exact absurd hsl (by simp)
      exact mergeOptions_ok_nested opts st.options merged "queryHandlerOptions" sl dl
        hnd hsl hk (by rfl) hdl hm

def optsQH : PropList :=
  .cons "wallet" (.objref "walletA" .nil)
    (.cons "queryHandler" (.str "./custom/handler")
      (.cons "queryHandlerOptions" (.obj (.cons "timeout" (.num 5) .nil)) .nil))

def gwConnQH : Gateway :=
  match gwBase.connect (.ccp []) (some optsQH) envW with
  | .ok s => s
  | .error _ => gwBase

/-- Witness for C9: a supplied handler differing from the default makes the
post-connect queryHandlerOptions exactly the supplied ones (the default empty
object is discarded, not merged in). -/
theorem connect_queryHandlerOptions_witness :
    getProp gwConnQH.options "queryHandlerOptions" =
      OptVal.obj (.cons "timeout" (.num 5) .nil) :=
  (connect_queryHandlerOptions gwBase (.ccp []) optsQH envW gwConnQH
    (by decide) (by rfl)).1 (by rfl)

/-- C5: a fresh gateway defaults to a 300-second commit timeout and the
MSPID_SCOPE_ALLFORTX event strategy, and a connect whose options do not
override those event-handler fields leaves both defaults reported by
`getOptions`. -/
theorem default_event_handler_options (initDiscovery : Bool) (config : ConnectConfig)
    (opts : PropList) (env : Env) (st' : Gateway)
    (hnd : (keysOf opts).Nodup)
    (hov : "eventHandlerOptions" ∈ keysOf opts →
      ∃ l, getProp opts "eventHandlerOptions" = OptVal.obj l ∧
        "commitTimeout" ∉ keysOf l ∧ "strategy" ∉ keysOf l)
    (hc : (Gateway.construct initDiscovery).connect config (some opts) env = .ok st') :
    jsGet (getProp (Gateway.construct initDiscovery).getOptions "eventHandlerOptions")
        "commitTimeout" = OptVal.num 300 ∧
    jsGet (getProp (Gateway.construct initDiscovery).getOptions "eventHandlerOptions")
        "strategy" = OptVal.objref "MSPID_SCOPE_ALLFORTX" PropList.nil ∧
    jsGet (getProp st'.getOptions "eventHandlerOptions") "commitTimeout" = OptVal.num 300 ∧
    jsGet (getProp st'.getOptions "eventHandlerOptions") "strategy" =
      OptVal.objref "MSPID_SCOPE_ALLFORTX" PropList.nil := by
  obtain ⟨-, merged, qhc, hm, -, hst⟩ :=
    connect_ok_elim (Gateway.construct initDiscovery) config opts env st' hc
  have hopts : st'.getOptions = merged := by rw [hst]; rfl
  have hbase : getProp (connectOpts1 (Gateway.construct initDiscovery) opts)
      "eventHandlerOptions" = OptVal.obj defaultEventHandlerOptions := by
    unfold connectOpts1
    split
    · rw [getProp_delProp_ne _ _ _ (by decide)]
      rfl
    · rfl
  have hE : ∃ ml, getProp merged "eventHandlerOptions" = OptVal.obj ml ∧
      getProp ml "commitTimeout" = OptVal.num 300 ∧
      getProp ml "strategy" = OptVal.objref "MSPID_SCOPE_ALLFORTX" PropList.nil := by
    by_cases hk : "eventHandlerOptions" ∈ keysOf opts
    · obtain ⟨l, hl, hct, hstg⟩ := hov hk
      obtain ⟨ml, hml, hgm⟩ := mergeOptions_ok_nested opts _ merged "eventHandlerOptions"
        l defaultEventHandlerOptions hnd hl hk (by rfl) hbase hm
      refine ⟨ml, hgm, ?_, ?_⟩
      · rw [mergeOptions_ok_notMem l defaultEventHandlerOptions ml _ hml hct]
        rfl
      · rw [mergeOptions_ok_notMem l defaultEventHandlerOptions ml _ hml hstg]
        rfl
    · rw [mergeOptions_ok_notMem opts _ merged _ hm hk, hbase]
      exact ⟨defaultEventHandlerOptions, rfl, rfl, rfl⟩
  obtain ⟨ml, h1, h2, h3⟩ := hE
  rw [hopts, h1]
  exact ⟨rfl, rfl, by simpa [jsGet, ownProps] using h2, by simpa [jsGet, ownProps] using h3⟩

def optsEvt : PropList :=
  .cons "wallet" (.objref "walletA" .nil)
    (.cons "eventHandlerOptions" (.obj (.cons "banana" (.num 1) .nil)) .nil)

def gwConnEvt : Gateway :=
  match gwBase.connect (.ccp []) (some optsEvt) envW with
  | .ok s => s
  | .error _ => gwBase

/-- Witness for C5: a connect supplying an eventHandlerOptions object that
overrides neither field keeps both defaults. -/
theorem default_event_handler_options_witness :
    jsGet (getProp gwConnEvt.getOptions "eventHandlerOptions") "commitTimeout" =
      OptVal.num 300 ∧
    jsGet (getProp gwConnEvt.getOptions "eventHandlerOptions") "strategy" =
      OptVal.objref "MSPID_SCOPE_ALLFORTX" PropList.nil := by
  have h := default_event_handler_options true (.ccp []) optsEvt envW gwConnEvt
    (by decide)
    (fun _ => ⟨.cons "banana" (.num 1) .nil, rfl, by decide, by decide⟩)
    (by rfl)
  exact ⟨h.2.2.1, h.2.2.2⟩

/-- C4: `_mergeOptions` is a recursive structural merge — every supplied
property that is not an options object replaces the default; every supplied
object under a key ending in `'Options'` whose default is an object merges
recursively, preserving unsupplied default sub-fields while supplied
(non-options-object) sub-fields override. -/
theorem mergeOptions_spec (d s d' : PropList) (hnd : (keysOf s).Nodup)
    (h : mergeOptions d s = .ok d') :
    (∀ k, k ∈ keysOf s →
      (isObject (getProp s k) && strEndsWith k "Options") = false →
      getProp d' k = getProp s k) ∧
    (∀ k sl dl, k ∈ keysOf s → getProp s k = OptVal.obj sl →
      strEndsWith k "Options" = true → getProp d k = OptVal.obj dl →
      (keysOf sl).Nodup →
      ∃ ml, mergeOptions dl sl = .ok ml ∧ getProp d' k = OptVal.obj ml ∧
        (∀ k', k' ∉ keysOf sl → getProp ml k' = getProp dl k') ∧
        (∀ k', k' ∈ keysOf sl →
          (isObject (getProp sl k') && strEndsWith k' "Options") = false →
          getProp ml k' = getProp sl k')) := by
  constructor
  · intro k hk hflat
    exact mergeOptions_ok_flat s d d' k hnd hk hflat h
  · intro k sl dl hk hsl hends hdl hndsl
    obtain ⟨ml, hml, hgm⟩ := mergeOptions_ok_nested s d d' k sl dl hnd hsl hk hends hdl h
    exact ⟨ml, hml, hgm,
      fun k' hk' => mergeOptions_ok_notMem sl dl ml k' hml hk',
      fun k' hk' hflat => mergeOptions_ok_flat sl dl ml k' hndsl hk' hflat hml⟩

def sampleSupplied : PropList :=
  .cons "identity" (.str "admin")
    (.cons "eventHandlerOptions" (.obj (.cons "commitTimeout" (.num 60) .nil)) .nil)

def sampleMerged : PropList :=
  match mergeOptions (Gateway.defaultOptions true) sampleSupplied with
  | .ok m => m
  | .error _ => .nil

/-- Witness for C4 on the constructor defaults: a flat property overrides,
a supplied commitTimeout overrides inside eventHandlerOptions, and the
unsupplied strategy sub-field survives the merge. -/
theorem mergeOptions_spec_witness :
    getProp sampleMerged "identity" = OptVal.str "admin" ∧
    jsGet (getProp sampleMerged "eventHandlerOptions") "commitTimeout" = OptVal.num 60 ∧
    jsGet (getProp sampleMerged "eventHandlerOptions") "strategy" =
      OptVal.objref "MSPID_SCOPE_ALLFORTX" PropList.nil := by
  have h := mergeOptions_spec (Gateway.defaultOptions true) sampleSupplied sampleMerged
    (by decide) (by rfl)
  refine ⟨h.1 "identity" (by decide) (by decide), ?_, ?_⟩
  · obtain ⟨ml, -, hgm, -, hover⟩ := h.2 "eventHandlerOptions"
      (.cons "commitTimeout" (.num 60) .nil) defaultEventHandlerOptions
      (by decide) (by rfl) (by rfl) (by rfl) (by decide)
    rw [hgm]
    simpa [jsGet, ownProps] using hover "commitTimeout" (by decide) (by decide)
  · obtain ⟨ml, -, hgm, hpres, -⟩ := h.2 "eventHandlerOptions"
      (.cons "commitTimeout" (.num 60) .nil) defaultEventHandlerOptions
      (by decide) (by rfl) (by rfl) (by rfl) (by decide)
    rw [hgm]
    have := hpres "strategy" (by decide)
    simp only [jsGet, ownProps]
    rw [this]
    rfl

/-- C6: when `this.options.queryHandler` is configured, `connect` loads that
module — an unloadable reference makes connect fail with an error naming the
module; on success the loaded class is what `_createQueryHandler` constructs
and initializes the per-channel handler from. -/
theorem connect_queryHandler_loading (st : Gateway) (config : ConnectConfig)
    (opts merged : PropList) (env : Env)
    (hw : truthy (getProp opts "wallet") = true)
    (hm : mergeOptions (connectOpts1 st opts) opts = .ok merged)
    (ht : truthy (getProp merged "queryHandler") = true) :
    (∀ e, env.requireModule (getProp merged "queryHandler") = .error e →
      st.connect config (some opts) env =
        .error ("unable to load provided query handler: " ++
          optToString (getProp merged "queryHandler") ++ ". Error " ++ e)) ∧
    (∀ cls, env.requireModule (getProp merged "queryHandler") = .ok cls →
      ∃ st', st.connect config (some opts) env = .ok st' ∧
        st'.queryHandlerClass = some cls ∧
        ∀ channel peers u, st'.currentIdentity = some u →
          st'.createQueryHandler channel peers =
            .ok (some { className := cls, channel := channel, mspId := u.mspId,
                        peers := peers,
                        handlerOptions := getProp st'.options "queryHandlerOptions",
                        initDone := true })) := by
  constructor
  · intro e he
    apply connect_qh_error st config opts env merged _ hw hm
    simp only [loadQueryHandlerClass]
    rw [if_pos ht, he]
  · intro cls hcls
    have hq : loadQueryHandlerClass merged st.queryHandlerClass env = .ok (some cls) := by
      simp only [loadQueryHandlerClass]
      rw [if_pos ht, hcls]
    refine ⟨_, connect_ok_intro st config opts env merged (some cls) hw hm hq, rfl, ?_⟩
    intro channel peers u hu
    simp only [Gateway.createQueryHandler] at hu ⊢
    rw [hu]

def optsQH2 : PropList :=
  .cons "wallet" (.objref "walletA" .nil)
    (.cons "queryHandler" (.str "./missing") .nil)

def mergedQH2 : PropList :=
  match mergeOptions (connectOpts1 gwBase optsQH2) optsQH2 with
  | .ok m => m
  | .error _ => .nil

/-- Witness for C6: an unloadable module reference makes connect throw an
error naming it. -/
theorem connect_queryHandler_loading_witness :
    gwBase.connect (.ccp []) (some optsQH2) envFail =
      .error
        "unable to load provided query handler: ./missing. Error Cannot find module" :=
  (connect_queryHandler_loading gwBase (.ccp []) optsQH2 mergedQH2 envFail
    (by rfl) (by rfl) (by rfl)).1 "Cannot find module" (by rfl)
